import Mathlib

/-!
Verification of the DO GenAI API request-handling pipeline.

Shallow embedding of the Flask application in src/: the response-normalization
wrapper (middleware/decorators.py and app.py, handle_response), the
authentication gate (middleware/auth.py and app.py, require_auth), the
multi-file upload handler, the agent creation and deletion handlers, the
managed-database listing adapter (services/do_api/databases.py), and the route
table registered by create_app in app.py.

Python exceptions are modelled by an explicit exception type; fallible
handlers return Except; machine state touched by the upload handler (the set
of temporary files on disk) is threaded explicitly as a list of paths.
-/

namespace DoGenai

/-- Python str.lower (the engine values involved are ASCII). -/
def pyLower (s : String) : String :=
  ⟨s.data.map Char.toLower⟩

/-- Python str.strip with no argument: remove leading and trailing
whitespace. -/
def pyStrip (s : String) : String :=
  ⟨((s.data.dropWhile Char.isWhitespace).reverse.dropWhile Char.isWhitespace).reverse⟩

/-- Auxiliary for pyStartsWith, on code-point lists. -/
def pyStartsWithChars : List Char → List Char → Bool
  | _, [] => true
  | [], _ :: _ => false
  | c :: cs, d :: ds => c == d && pyStartsWithChars cs ds

/-- Python str.startswith. -/
def pyStartsWith (s pat : String) : Bool :=
  pyStartsWithChars s.data pat.data

/-- Python slicing s[n:] (by code points). -/
def pyDrop (s : String) (n : Nat) : String :=
  ⟨s.data.drop n⟩

/-- Flat JSON scalar values appearing in response envelopes. -/
inductive JVal where
  | null
  | str (s : String)
  | nat (n : Nat)
  | bool (b : Bool)
deriving DecidableEq, Repr

/-- Python exceptions relevant to the handlers: the decorator in
middleware/decorators.py catches ValueError, then RuntimeError, then any
other Exception (TypeError, KeyError, ... fall into the last arm). -/
inductive PyExc where
  | valueError (msg : String)
  | runtimeError (msg : String)
  | typeError (msg : String)
  | keyError (msg : String)
  | other (name : String) (msg : String)
deriving DecidableEq, Repr

/-- The str(e) of an exception. -/
def PyExc.message : PyExc → String
  | .valueError m => m
  | .runtimeError m => m
  | .typeError m => m
  | .keyError m => m
  | .other _ m => m

/-- Whether the exception is a ValueError (first except arm). -/
def PyExc.isValueError : PyExc → Bool
  | .valueError _ => true
  | _ => false

/-- Whether the exception is a RuntimeError (second except arm). -/
def PyExc.isRuntimeError : PyExc → Bool
  | .runtimeError _ => true
  | _ => false

/-- The response envelope produced by the handle_response decorator. -/
inductive Envelope (α : Type) where
  | success (result : α)
  | error (message : String)
deriving DecidableEq, Repr

/-- Embedding of handle_response (middleware/decorators.py lines 8-47, and the
identical copy in app.py): wraps a handler outcome into an envelope and an
HTTP status code.  ValueError is caught first (400), then RuntimeError (500),
then any other exception (500 with a generic message). -/
def handle_response {α : Type} (out : Except PyExc α) : Envelope α × Nat :=
  match out with
  | Except.ok result => (Envelope.success result, 200)
  | Except.error (PyExc.valueError m) => (Envelope.error m, 400)
  | Except.error (PyExc.runtimeError m) => (Envelope.error m, 500)
  | Except.error e => (Envelope.error ("An unexpected error occurred: " ++ e.message), 500)

/-- The JSON body of an envelope, as an association list in insertion order:
jsonify({..status \x7b merged with\x7d result..}).  Wrapped handlers in this
repository never return a field named status, so prepending the status
binding coincides with the Python dict merge. -/
def envelopeFields : Envelope (List (String × JVal)) → List (String × JVal)
  | Envelope.success result => ("status", JVal.str "success") :: result
  | Envelope.error m => [("status", JVal.str "error"), ("message", JVal.str m)]

/-- The {status error, message} body produced by the auth middleware. -/
def errBody (m : String) : List (String × JVal) :=
  [("status", JVal.str "error"), ("message", JVal.str m)]

/-- The per-request data inspected by the authentication gate. -/
structure AuthRequest where
  method : String
  authHeader : Option String
deriving DecidableEq, Repr

/-- Embedding of require_auth (middleware/auth.py lines 8-52, and the identical
copy in app.py).  apiBearerToken models os.getenv: none when the variable is
unset; the Python truthiness test also treats an empty string as unset.
Returns none when the request is allowed through, otherwise the error body and
status code. -/
def require_auth (apiBearerToken : Option String) (req : AuthRequest) :
    Option (List (String × JVal) × Nat) :=
  if apiBearerToken.getD "" = "" then
    some (errBody "API_BEARER_TOKEN environment variable is required", 500)
  else if req.method = "OPTIONS" then
    none
  else
    let auth_header := req.authHeader.getD ""
    if auth_header = "" then
      some (errBody "Authorization header is required", 401)
    else if !(pyStartsWith auth_header "Bearer ") then
      some (errBody "Authorization header must start with \"Bearer \"", 401)
    else
      let token := pyDrop auth_header 7
      if token ≠ apiBearerToken.getD "" then
        some (errBody "Invalid authentication token", 401)
      else
        none

/-- Outcome of processing one uploaded file inside the loop of upload_file
(routes/files.py lines 77-112, identically in app.py).  The loop body runs
tempfile.NamedTemporaryFile (creating a uniquely named temp file on disk),
file.save, temp_file.close, then kb.upload_file; any exception from these is
caught by the per-file except arm.  A fate records how far the iteration got
and which temp path / object key / exception message the environment chose. -/
inductive FileFate where
  | tmpFail (msg : String)
  | saveFail (tmpPath : String) (msg : String)
  | uploadFail (tmpPath : String) (msg : String)
  | uploadOk (tmpPath : String) (key : String)
deriving DecidableEq, Repr

/-- One entry of request.files.getlist("file"): the (possibly missing or
blank) filename plus the fate its processing would take. -/
structure FileCase where
  filename : Option String
  fate : FileFate
deriving DecidableEq, Repr

/-- One entry of the results list built by upload_file. -/
structure FileResult where
  filename : Option String
  key : Option String
  success : Bool
  error : Option String
deriving DecidableEq, Repr

/-- The results entry appended for one file: the success dict after a
completed upload, the failure dict from the per-file except arm otherwise. -/
def fileResultOf (fc : FileCase) : FileResult :=
  match fc.fate with
  | FileFate.tmpFail m => ⟨fc.filename, none, false, some m⟩
  | FileFate.saveFail _ m => ⟨fc.filename, none, false, some m⟩
  | FileFate.uploadFail _ m => ⟨fc.filename, none, false, some m⟩
  | FileFate.uploadOk _ k => ⟨fc.filename, some k, true, none⟩

/-- The temp path recorded in temp_paths for one file: present exactly when
tempfile.NamedTemporaryFile succeeded (everything except tmpFail). -/
def tempPathOf (fc : FileCase) : Option String :=
  match fc.fate with
  | FileFate.tmpFail _ => none
  | FileFate.saveFail p _ => some p
  | FileFate.uploadFail p _ => some p
  | FileFate.uploadOk p _ => some p

/-- Whether the remote upload of this file succeeded. -/
def fateSucceeds : FileFate → Bool
  | FileFate.uploadOk _ _ => true
  | _ => false

/-- Python truthiness filter from upload_file:
f.filename and f.filename.strip(). -/
def validFilename : Option String → Bool
  | none => false
  | some s => !(s == "") && !(pyStrip s == "")

/-- os.unlink: the path disappears from the filesystem. -/
def unlinkFS (p : String) (fs : List String) : List String :=
  fs.filter (fun q => q != p)

/-- The finally arm of upload_file: for each recorded temp path, if it still
exists, unlink it (unlink errors are swallowed; at this level of modelling
unlink always removes the path). -/
def cleanupTemps : List String → List String → List String
  | [], fs => fs
  | p :: rest, fs => cleanupTemps rest (if fs.contains p then unlinkFS p fs else fs)

/-- The per-file loop of upload_file, with the accumulated results list,
temp_paths list, and filesystem (list of existing temp-file paths) threaded
through.  Each iteration appends exactly one result; when the temp file was
created it is both recorded in temp_paths and added to the filesystem. -/
def processLoop : List FileCase → List FileResult → List String → List String →
    List FileResult × List String × List String
  | [], results, temp_paths, fs => (results, temp_paths, fs)
  | fc :: rest, results, temp_paths, fs =>
    match tempPathOf fc with
    | none => processLoop rest (results ++ [fileResultOf fc]) temp_paths fs
    | some p => processLoop rest (results ++ [fileResultOf fc]) (temp_paths ++ [p]) (p :: fs)

/-- The summary dict returned by upload_file. -/
structure UploadResponse where
  message : String
  results : List FileResult
  successful : Nat
  failed : Nat
  total : Nat
  folder : Option String
deriving DecidableEq, Repr

/-- The summary block of upload_file (the lines from
`successful = sum(...)` to the return dict): grade the overall message and
assemble the response from the accumulated results list. -/
def uploadSummary (results : List FileResult) (folder : String) : UploadResponse :=
  let successful := (results.filter (fun r => r.success)).length
  let total := results.length
  let message :=
    if successful = total then
      "All " ++ toString total ++ " file(s) uploaded successfully"
    else if successful > 0 then
      toString successful ++ " of " ++ toString total ++ " file(s) uploaded successfully"
    else
      "No files were uploaded successfully"
  { message := message
    results := results
    successful := successful
    failed := total - successful
    total := total
    folder := if folder = "" then none else some folder }

/-- Embedding of upload_file (routes/files.py lines 39-141, identically
app.py lines 168-268): validate the batch, process each valid file
independently, compose the summary, and in the finally arm delete every
recorded temporary file.  Returns the handler outcome and the filesystem
after the handler returns.  The only raises are the two ValueErrors before
any temp file exists; per-file exceptions are caught inside the loop (the
fates), so nothing escapes the try body and the finally cleanup always
runs on the state the loop produced. -/
def upload_file (files : List FileCase) (folder : String) (fs : List String) :
    Except PyExc UploadResponse × List String :=
  if files.isEmpty then
    (Except.error (PyExc.valueError
      "No files provided. Please include at least one \x27file\x27 field in the request."), fs)
  else
    let valid_files := files.filter (fun f => validFilename f.filename)
    if valid_files.isEmpty then
      (Except.error (PyExc.valueError
        "No valid files selected. Please provide at least one file with a filename."), fs)
    else
      let step := processLoop valid_files [] [] fs
      (Except.ok (uploadSummary step.1 folder), cleanupTemps step.2.1 step.2.2)

/-- A failure raised by the generative-AI adapter call, as inspected by the
except arm of create_agent: str(e) plus the optional gRPC diagnostic
attributes read via getattr(e, "details"/"code", None). -/
structure GrpcError where
  msg : String
  details : Option String
  code : Option String
deriving DecidableEq, Repr

/-- The error_msg enrichment performed in the except arm of create_agent
(routes/agents.py lines 91-100, identically app.py): append the details and
code when present.  Python tests the attributes for truthiness, so an empty
string is skipped like a missing one. -/
def enrichError (e : GrpcError) : String :=
  let m1 :=
    match e.details with
    | some d => if d = "" then e.msg else e.msg ++ " - Details: " ++ d
    | none => e.msg
  match e.code with
  | some c => if c = "" then m1 else m1 ++ " - Code: " ++ c
  | none => m1

/-- The JSON request body of POST /api/agents as read by data.get(...). -/
structure CreateAgentBody where
  name : Option String
  description : Option String
  instructions : Option String
  model : Option String
  workspace : Option String
  region : Option String
  project_id : Option String
deriving DecidableEq, Repr

/-- Python validation `not v or not isinstance(v, str) or not v.strip()` on an
optional string field (the isinstance arm is vacuous in the typed model). -/
def isBlankOpt : Option String → Bool
  | none => true
  | some v => v == "" || pyStrip v == ""

/-- Embedding of the create_agent handler (app.py lines 506-575; the
blueprint copy in routes/agents.py lines 63-105 differs only in forwarding
the optional parameters).  doCall models the adapter round trip:
Except.error is a raised exception, Except.ok none a falsy (empty) response,
Except.ok (some resp) a usable response.  A falsy response raises
RuntimeError inside the try; the except arm catches every exception and
converts it to a normal return, so the handler never fails past
validation. -/
def create_agent (body : Option CreateAgentBody)
    (doCall : Except GrpcError (Option (List (String × JVal)))) :
    Except PyExc (List (String × JVal)) :=
  match body with
  | none => Except.error (PyExc.valueError "Request body must be provided")
  | some data =>
    if isBlankOpt data.name then
      Except.error (PyExc.valueError "Agent name is required and cannot be empty")
    else if isBlankOpt data.instructions then
      Except.error (PyExc.valueError "Agent instructions are required and cannot be empty")
    else
      match doCall with
      | Except.ok (some resp) => Except.ok resp
      | Except.ok none =>
        -- the RuntimeError raised inside the try is caught by the same
        -- except arm; it has no details or code attribute
        Except.ok [("message", JVal.str "Agent creation failed"),
                   ("error", JVal.str "Failed to create agent in DigitalOcean - no response received")]
      | Except.error e =>
        Except.ok [("message", JVal.str "Agent creation failed"),
                   ("error", JVal.str (enrichError e))]

/-- The agent record nested under the "agent" key of a get_agent response. -/
structure AgentRecord where
  uuid : String
deriving DecidableEq, Repr

/-- A truthy get_agent response dict; its "agent" value may itself be None. -/
structure GetAgentResult where
  agent : Option AgentRecord
deriving DecidableEq, Repr

/-- Embedding of the delete_agent handler (app.py lines 577-589; routes/
agents.py lines 133-155 is identical).  lookup models get_agent: none is a
falsy result (Python None).  The guard is written
`if not agent and not agent["agent"]`, so on a falsy lookup Python evaluates
the subscript on None and raises TypeError before the ValueError can be
raised; on a truthy lookup the conjunction short-circuits to False and the
subsequent print subscripts agent["agent"]["uuid"], again raising TypeError
when the "agent" value is None. -/
def delete_agent (id : String) (lookup : Option GetAgentResult)
    (deleteResp : List (String × JVal)) : Except PyExc (List (String × JVal)) :=
  if id == "" || pyStrip id == "" then
    Except.error (PyExc.valueError "Agent ID cannot be empty")
  else
    match lookup with
    | none =>
      Except.error (PyExc.typeError "\x27NoneType\x27 object is not subscriptable")
    | some agent =>
      match agent.agent with
      | none =>
        Except.error (PyExc.typeError "\x27NoneType\x27 object is not subscriptable")
      | some _ => Except.ok deleteResp

/-- One vendor database cluster; db.get("engine", "") reads the optional
engine field with default empty string. -/
structure Cluster where
  name : String
  engine : Option String
deriving DecidableEq, Repr

/-- Values of the dict returned by the managed-database listing. -/
inductive DBVal where
  | clusters (dbs : List Cluster)
  | count (n : Nat)
deriving DecidableEq, Repr

/-- Embedding of Databases.list_opensearch_databases (services/do_api/
databases.py lines 15-47), on the branch where the vendor response carries
the cluster list under its "databases" key (the list-shaped branch filters
identically).  Keeps exactly the clusters whose engine lowercases to
"opensearch" and returns the dict with keys "databases" and "count". -/
def list_opensearch_databases (databases : List Cluster) : List (String × DBVal) :=
  let opensearch_databases :=
    databases.filter (fun db => pyLower (db.engine.getD "") == "opensearch")
  [("databases", DBVal.clusters opensearch_databases),
   ("count", DBVal.count opensearch_databases.length)]

/-- One segment of a route pattern: a literal or a path parameter such as
the id in /api/agents/id. -/
inductive Seg where
  | lit (s : String)
  | param
deriving DecidableEq, Repr

/-- A registered route: HTTP method plus path pattern. -/
structure Route where
  method : String
  pattern : List Seg
deriving DecidableEq, Repr

/-- Auxiliary for pathSegments: split a code-point list at slashes, the
second argument holding the current segment reversed. -/
def splitSlashAux : List Char → List Char → List String
  | [], acc => [⟨acc.reverse⟩]
  | '/' :: rest, acc => (⟨acc.reverse⟩ : String) :: splitSlashAux rest []
  | c :: rest, acc => splitSlashAux rest (c :: acc)

/-- Split a request path into its nonempty segments. -/
def pathSegments (p : String) : List String :=
  (splitSlashAux p.data []).filter (fun s => s != "")

/-- Match a pattern against the segments of a concrete path. -/
def segsMatch : List Seg → List String → Bool
  | [], [] => true
  | Seg.lit s :: ps, x :: xs => s == x && segsMatch ps xs
  | Seg.param :: ps, x :: xs => !(x == "") && segsMatch ps xs
  | _, _ => false

/-- Whether a route serves the given method and path. -/
def routeMatches (r : Route) (method path : String) : Bool :=
  r.method == method && segsMatch r.pattern (pathSegments path)

/-- The routes registered by create_app (app.py lines 113-652).  These are
the only routes of the served application: create_app registers its own
inline handlers and never calls app.register_blueprint, so the blueprint
modules under routes/ contribute nothing to the URL map. -/
def registeredRoutes : List Route :=
  [⟨"GET", []⟩,
   ⟨"GET", [Seg.lit "api", Seg.lit "files"]⟩,
   ⟨"POST", [Seg.lit "api", Seg.lit "files"]⟩,
   ⟨"DELETE", [Seg.lit "api", Seg.lit "files"]⟩,
   ⟨"POST", [Seg.lit "api", Seg.lit "knowledgebase"]⟩,
   ⟨"POST", [Seg.lit "api", Seg.lit "knowledgebase", Seg.lit "reindex"]⟩,
   ⟨"GET", [Seg.lit "api", Seg.lit "agents", Seg.param]⟩,
   ⟨"GET", [Seg.lit "api", Seg.lit "agents", Seg.param, Seg.lit "api-keys"]⟩,
   ⟨"POST", [Seg.lit "api", Seg.lit "agents", Seg.param, Seg.lit "api-keys"]⟩,
   ⟨"GET", [Seg.lit "api", Seg.lit "agents"]⟩,
   ⟨"POST", [Seg.lit "api", Seg.lit "agents"]⟩,
   ⟨"DELETE", [Seg.lit "api", Seg.lit "agents", Seg.param]⟩,
   ⟨"GET", [Seg.lit "api", Seg.lit "models"]⟩,
   ⟨"POST", [Seg.lit "api", Seg.lit "buckets"]⟩,
   ⟨"GET", [Seg.lit "api", Seg.lit "buckets"]⟩,
   ⟨"GET", [Seg.lit "api", Seg.lit "buckets", Seg.param]⟩,
   ⟨"DELETE", [Seg.lit "api", Seg.lit "buckets", Seg.param]⟩]

/-- The route declared by the databases blueprint (routes/databases.py):
GET on the blueprint base path /api/opensearch-databases.  Defined in the
repository but never registered on the app. -/
def databases_bp_routes : List Route :=
  [⟨"GET", [Seg.lit "api", Seg.lit "opensearch-databases"]⟩]

/-- What the served app does with a request before any handler body runs. -/
inductive DispatchResult where
  | authReject (body : List (String × JVal)) (status : Nat)
  | routed (idx : Nat)
  | notFound
deriving DecidableEq, Repr

/-- Whether dispatch reached a route handler. -/
def DispatchResult.isRouted : DispatchResult → Bool
  | DispatchResult.routed _ => true
  | _ => false

/-- Request dispatch of the app built by create_app: the before_request
hook require_auth runs first for every request (Flask runs before_request
ahead of view dispatch, so even an unmatched path is authenticated first);
if it passes, the URL map decides between a handler and the unknown-route
response.  create_app raises at startup when the token is unset, so the
served app always has a bearer token string. -/
def app_dispatch (apiBearerToken : String) (method path : String)
    (authHeader : Option String) : DispatchResult :=
  match require_auth (some apiBearerToken) ⟨method, authHeader⟩ with
  | some (body, status) => DispatchResult.authReject body status
  | none =>
    match registeredRoutes.findIdx? (fun r => routeMatches r method path) with
    | some i => DispatchResult.routed i
    | none => DispatchResult.notFound

/-! ## Helper lemmas -/

/-- Unfolding the per-file loop: results extend by the mapped per-file
results, temp_paths by the created temp paths, and the filesystem gains the
created paths (most recent first). -/
lemma processLoop_spec (fcs : List FileCase) : ∀ (results : List FileResult)
    (temp_paths fs : List String),
    processLoop fcs results temp_paths fs =
      (results ++ fcs.map fileResultOf,
       temp_paths ++ fcs.filterMap tempPathOf,
       (fcs.filterMap tempPathOf).reverse ++ fs) := by
  induction fcs with
  | nil => intro r t f; simp [processLoop]
  | cons fc rest ih =>
    intro r t f
    cases h : tempPathOf fc with
    | none => simp [processLoop, h, ih, List.filterMap_cons]
    | some p => simp [processLoop, h, ih, List.filterMap_cons]

/-- Cleanup only ever removes paths. -/
lemma cleanupTemps_mem (paths : List String) : ∀ (fs : List String) (p : String),
    p ∈ cleanupTemps paths fs → p ∈ fs := by
  induction paths with
  | nil => intro fs p h; simpa [cleanupTemps] using h
  | cons q rest ih =>
    intro fs p h
    have h2 := ih _ p h
    by_cases hc : fs.contains q
    · rw [if_pos hc] at h2
      simp only [unlinkFS, List.mem_filter] at h2
      exact h2.1
    · rwa [if_neg hc] at h2

/-- Every path in the cleanup list is gone afterwards. -/
lemma cleanupTemps_removes (paths : List String) : ∀ (fs : List String) (p : String),
    p ∈ paths → p ∉ cleanupTemps paths fs := by
  induction paths with
  | nil => intro fs p h; simp at h
  | cons q rest ih =>
    intro fs p hp hmem
    rw [cleanupTemps] at hmem
    rcases List.mem_cons.mp hp with rfl | hp'
    · have h2 := cleanupTemps_mem rest _ p hmem
      by_cases hc : fs.contains p
      · rw [if_pos hc] at h2
        simp [unlinkFS, List.mem_filter] at h2
      · rw [if_neg hc] at h2
        simp only [List.contains, List.elem_eq_mem, decide_eq_true_eq] at hc
        exact hc h2
    · exact ih _ p hp' hmem

/-- A per-file result records success exactly when the fate was a completed
upload. -/
lemma fileResultOf_success (fc : FileCase) :
    (fileResultOf fc).success = fateSucceeds fc.fate := by
  cases h : fc.fate <;> simp [fileResultOf, fateSucceeds, h]

/-- A per-file result records success exactly when its error field is
empty. -/
lemma fileResultOf_success_iff_error (fc : FileCase) :
    (fileResultOf fc).success = true ↔ (fileResultOf fc).error = none := by
  cases h : fc.fate <;> simp [fileResultOf, h]

/-- Counting successful results equals counting successful fates. -/
lemma count_success (l : List FileCase) :
    ((l.map fileResultOf).filter (fun r => r.success)).length =
      (l.filter (fun fc => fateSucceeds fc.fate)).length := by
  induction l with
  | nil => rfl
  | cons fc rest ih =>
    by_cases hb : fateSucceeds fc.fate
    · simp [List.filter_cons, fileResultOf_success, hb, ih]
    · simp [List.filter_cons, fileResultOf_success, hb, ih]

/-- The results recorded in the summary. -/
lemma uploadSummary_results (results : List FileResult) (folder : String) :
    (uploadSummary results folder).results = results := rfl

/-- The success count recorded in the summary. -/
lemma uploadSummary_successful (results : List FileResult) (folder : String) :
    (uploadSummary results folder).successful = (results.filter (fun r => r.success)).length := rfl

/-- The total recorded in the summary. -/
lemma uploadSummary_total (results : List FileResult) (folder : String) :
    (uploadSummary results folder).total = results.length := rfl

/-- The failure count recorded in the summary. -/
lemma uploadSummary_failed (results : List FileResult) (folder : String) :
    (uploadSummary results folder).failed =
      (uploadSummary results folder).total - (uploadSummary results folder).successful := rfl

/-- The graded message in the mixed-outcome case. -/
lemma uploadSummary_message_mixed (results : List FileResult) (folder : String)
    (h1 : 0 < (uploadSummary results folder).successful)
    (h2 : (uploadSummary results folder).successful < (uploadSummary results folder).total) :
    (uploadSummary results folder).message =
      toString (uploadSummary results folder).successful ++ " of "
        ++ toString (uploadSummary results folder).total ++ " file(s) uploaded successfully" := by
  have hs : (uploadSummary results folder).successful =
      (results.filter (fun r => r.success)).length := rfl
  have ht : (uploadSummary results folder).total = results.length := rfl
  show (if (results.filter (fun r => r.success)).length = results.length then _
    else if (results.filter (fun r => r.success)).length > 0 then _ else _) = _
  rw [hs] at h1 h2
  rw [ht] at h2
  rw [if_neg (by omega), if_pos (by omega), hs, ht]

/-- Running upload_file on a batch with at least one valid file: the
handler returns normally with the summary built from the per-file loop, and
the final filesystem is the loop state swept by the cleanup arm. -/
lemma upload_file_ok (files : List FileCase) (folder : String) (fs : List String)
    (hvalid : files.filter (fun f => validFilename f.filename) ≠ []) :
    upload_file files folder fs =
      (Except.ok (uploadSummary
          ((files.filter (fun f => validFilename f.filename)).map fileResultOf) folder),
       cleanupTemps ((files.filter (fun f => validFilename f.filename)).filterMap tempPathOf)
         (((files.filter (fun f => validFilename f.filename)).filterMap tempPathOf).reverse ++ fs)) := by
  have hne : files.isEmpty = false := by
    cases files with
    | nil => simp at hvalid
    | cons a l => rfl
  have hvne : (files.filter (fun f => validFilename f.filename)).isEmpty = false := by
    cases hval : files.filter (fun f => validFilename f.filename) with
    | nil => exact absurd hval hvalid
    | cons a l => rfl
  simp only [upload_file, hne, hvne, Bool.false_eq_true, if_false, processLoop_spec,
    List.nil_append]

/-- Gate outcome when the expected token is unset or empty (Python falsy). -/
lemma require_auth_unset (req : AuthRequest) :
    require_auth none req =
      some (errBody "API_BEARER_TOKEN environment variable is required", 500)
    ∧ require_auth (some "") req =
      some (errBody "API_BEARER_TOKEN environment variable is required", 500) :=
  ⟨rfl, rfl⟩

/-- Gate outcome for CORS OPTIONS requests. -/
lemma require_auth_options (tok : String) (req : AuthRequest) (htok : tok ≠ "")
    (hm : req.method = "OPTIONS") : require_auth (some tok) req = none := by
  simp [require_auth, Option.getD_some, htok, hm]

/-- Gate outcome when the Authorization header is absent or empty. -/
lemma require_auth_missing_header (tok : String) (req : AuthRequest) (htok : tok ≠ "")
    (hm : req.method ≠ "OPTIONS") (hh : req.authHeader.getD "" = "") :
    require_auth (some tok) req = some (errBody "Authorization header is required", 401) := by
  simp [require_auth, Option.getD_some, htok, hm, hh]

/-- Gate outcome when the header does not carry the Bearer scheme. -/
lemma require_auth_bad_scheme (tok h : String) (req : AuthRequest) (htok : tok ≠ "")
    (hm : req.method ≠ "OPTIONS") (hh : req.authHeader = some h) (hne : h ≠ "")
    (hsw : pyStartsWith h "Bearer " = false) :
    require_auth (some tok) req =
      some (errBody "Authorization header must start with \"Bearer \"", 401) := by
  simp [require_auth, Option.getD_some, htok, hm, hh, hne, hsw]

/-- A header carrying the Bearer scheme is nonempty. -/
lemma bearer_header_ne_empty (h : String) (hsw : pyStartsWith h "Bearer " = true) :
    h ≠ "" := by
  intro he
  subst he
  exact Bool.noConfusion ((rfl : pyStartsWith "" "Bearer " = false) ▸ hsw)

/-- Gate outcome when the carried token mismatches the expected one. -/
lemma require_auth_wrong_token (tok h : String) (req : AuthRequest) (htok : tok ≠ "")
    (hm : req.method ≠ "OPTIONS") (hh : req.authHeader = some h)
    (hsw : pyStartsWith h "Bearer " = true) (hd : pyDrop h 7 ≠ tok) :
    require_auth (some tok) req = some (errBody "Invalid authentication token", 401) := by
  have hne : h ≠ "" := bearer_header_ne_empty h hsw
  simp [require_auth, Option.getD_some, htok, hm, hh, hne, hsw, hd]

/-- Gate outcome when the carried token matches: pass through. -/
lemma require_auth_pass (tok h : String) (req : AuthRequest) (htok : tok ≠ "")
    (hm : req.method ≠ "OPTIONS") (hh : req.authHeader = some h)
    (hsw : pyStartsWith h "Bearer " = true) (hd : pyDrop h 7 = tok) :
    require_auth (some tok) req = none := by
  have hne : h ≠ "" := bearer_header_ne_empty h hsw
  simp [require_auth, Option.getD_some, htok, hm, hh, hne, hsw, hd]

/-! ## Claims -/

/-- Claim C3: the response-normalization wrapper maps every handler outcome
to the uniform envelope and status code: a key-value result is merged into a
status-success body with HTTP 200; a ValueError (validation-type failure)
gives a status-error body with its message and HTTP 400; a RuntimeError
(dependency/operation failure) gives HTTP 500; any other uncaught exception
gives HTTP 500 with the generic unexpected-error message.  Handlers
themselves return plain results or raise (the Except type carries no status
code), so this wrapper is the single place the status-code policy lives. -/
theorem handle_response_policy :
    (∀ result : List (String × JVal),
        handle_response (Except.ok result) = (Envelope.success result, 200)
        ∧ envelopeFields (Envelope.success result) = ("status", JVal.str "success") :: result)
    ∧ (∀ m : String,
        @handle_response (List (String × JVal)) (Except.error (PyExc.valueError m)) =
          (Envelope.error m, 400))
    ∧ (∀ m : String,
        @handle_response (List (String × JVal)) (Except.error (PyExc.runtimeError m)) =
          (Envelope.error m, 500))
    ∧ (∀ e : PyExc, e.isValueError = false → e.isRuntimeError = false →
        @handle_response (List (String × JVal)) (Except.error e) =
          (Envelope.error ("An unexpected error occurred: " ++ e.message), 500))
    ∧ (∀ m : String,
        envelopeFields (Envelope.error m) =
          [("status", JVal.str "error"), ("message", JVal.str m)]) := by
  refine ⟨fun r => ⟨rfl, rfl⟩, fun m => rfl, fun m => rfl, ?_, fun m => rfl⟩
  intro e h1 h2
  cases e with
  | valueError m => exact absurd h1 (by simp [PyExc.isValueError])
  | runtimeError m => exact absurd h2 (by simp [PyExc.isRuntimeError])
  | typeError m => rfl
  | keyError m => rfl
  | other n m => rfl

/-- Witness for C3: a TypeError is neither a ValueError nor a RuntimeError
and lands in the generic 500 arm. -/
theorem handle_response_policy_witness :
    PyExc.isValueError (PyExc.typeError "boom") = false
    ∧ PyExc.isRuntimeError (PyExc.typeError "boom") = false
    ∧ @handle_response (List (String × JVal)) (Except.error (PyExc.typeError "boom")) =
        (Envelope.error "An unexpected error occurred: boom", 500) :=
  ⟨rfl, rfl, handle_response_policy.2.2.2.1 (PyExc.typeError "boom") rfl rfl⟩

/-- Claim C4: the authentication gate decides every request by cases: unset
(or blank) expected token gives the configuration-error body with 500;
OPTIONS requests bypass the check; a missing (or empty) Authorization header
is rejected 401 saying the header is required; a header not shaped
`Bearer token` is rejected 401 with the must-start-with-Bearer message; a
carried token differing from the expected one is rejected 401 as invalid;
otherwise the request passes through (the gate returns nothing and has no
side effects). -/
theorem require_auth_cases :
    (∀ req : AuthRequest,
        require_auth none req =
          some (errBody "API_BEARER_TOKEN environment variable is required", 500)
        ∧ require_auth (some "") req =
          some (errBody "API_BEARER_TOKEN environment variable is required", 500))
    ∧ (∀ (tok : String) (req : AuthRequest), tok ≠ "" → req.method = "OPTIONS" →
        require_auth (some tok) req = none)
    ∧ (∀ (tok : String) (req : AuthRequest), tok ≠ "" → req.method ≠ "OPTIONS" →
        req.authHeader.getD "" = "" →
        require_auth (some tok) req = some (errBody "Authorization header is required", 401))
    ∧ (∀ (tok h : String) (req : AuthRequest), tok ≠ "" → req.method ≠ "OPTIONS" →
        req.authHeader = some h → h ≠ "" → pyStartsWith h "Bearer " = false →
        require_auth (some tok) req =
          some (errBody "Authorization header must start with \"Bearer \"", 401))
    ∧ (∀ (tok h : String) (req : AuthRequest), tok ≠ "" → req.method ≠ "OPTIONS" →
        req.authHeader = some h → pyStartsWith h "Bearer " = true → pyDrop h 7 ≠ tok →
        require_auth (some tok) req = some (errBody "Invalid authentication token", 401))
    ∧ (∀ (tok h : String) (req : AuthRequest), tok ≠ "" → req.method ≠ "OPTIONS" →
        req.authHeader = some h → pyStartsWith h "Bearer " = true → pyDrop h 7 = tok →
        require_auth (some tok) req = none) :=
  ⟨require_auth_unset,
   require_auth_options,
   require_auth_missing_header,
   fun tok h req h1 h2 h3 h4 h5 => require_auth_bad_scheme tok h req h1 h2 h3 h4 h5,
   fun tok h req h1 h2 h3 h4 h5 => require_auth_wrong_token tok h req h1 h2 h3 h4 h5,
   fun tok h req h1 h2 h3 h4 h5 => require_auth_pass tok h req h1 h2 h3 h4 h5⟩

/-- Witness for C4: concrete requests exercising the missing-header,
wrong-token and pass-through arms of the gate. -/
theorem require_auth_cases_witness :
    ("secret" ≠ "" ∧ "GET" ≠ "OPTIONS")
    ∧ require_auth (some "secret") ⟨"GET", none⟩ =
        some (errBody "Authorization header is required", 401)
    ∧ require_auth (some "secret") ⟨"GET", some "Bearer wrong"⟩ =
        some (errBody "Invalid authentication token", 401)
    ∧ require_auth (some "secret") ⟨"GET", some "Bearer secret"⟩ = none :=
  ⟨⟨by decide, by decide⟩,
   require_auth_cases.2.2.1 "secret" ⟨"GET", none⟩ (by decide) (by decide) rfl,
   require_auth_cases.2.2.2.2.1 "secret" "Bearer wrong" ⟨"GET", some "Bearer wrong"⟩
     (by decide) (by decide) rfl (by decide) (by decide),
   require_auth_cases.2.2.2.2.2 "secret" "Bearer secret" ⟨"GET", some "Bearer secret"⟩
     (by decide) (by decide) rfl (by decide) (by decide)⟩

/-- Claim C5: agent creation with a valid non-blank name and instructions
never surfaces a remote failure as an HTTP error: whether the adapter call
raises or returns an empty (falsy) response, the wrapped handler produces an
HTTP 200 success envelope with message "Agent creation failed" and an error
field carrying the diagnostic (the exception message enriched with the
vendor details and code when present). -/
theorem create_agent_soft_failure (data : CreateAgentBody)
    (hname : isBlankOpt data.name = false) (hinstr : isBlankOpt data.instructions = false) :
    (∀ e : GrpcError,
        handle_response (create_agent (some data) (Except.error e)) =
          (Envelope.success [("message", JVal.str "Agent creation failed"),
              ("error", JVal.str (enrichError e))], 200))
    ∧ handle_response (create_agent (some data) (Except.ok none)) =
        (Envelope.success [("message", JVal.str "Agent creation failed"),
            ("error", JVal.str "Failed to create agent in DigitalOcean - no response received")],
         200) := by
  constructor
  · intro e
    simp [create_agent, hname, hinstr, handle_response]
  · simp [create_agent, hname, hinstr, handle_response]

/-- Witness for C5: a concrete valid body and a failing adapter call with
vendor diagnostics. -/
theorem create_agent_soft_failure_witness :
    isBlankOpt (some "My agent") = false
    ∧ isBlankOpt (some "Be helpful") = false
    ∧ handle_response (create_agent
          (some ⟨some "My agent", some "", some "Be helpful", none, none, none, none⟩)
          (Except.error ⟨"remote call failed", some "quota exceeded", some "8"⟩)) =
        (Envelope.success [("message", JVal.str "Agent creation failed"),
            ("error", JVal.str "remote call failed - Details: quota exceeded - Code: 8")],
         200) :=
  ⟨by decide, by decide,
   (create_agent_soft_failure ⟨some "My agent", some "", some "Be helpful", none, none, none, none⟩
      (by decide) (by decide)).1 ⟨"remote call failed", some "quota exceeded", some "8"⟩⟩

/-- Counterexample for C6: on the mixed cluster list the result dict has
keys "databases" and "count" — there is no "items" key, refuting the claimed
result shape; the filtering and the count themselves behave as claimed. -/
theorem list_opensearch_databases_shape_counterexample :
    (list_opensearch_databases [⟨"db-a", some "opensearch"⟩, ⟨"db-b", some "OPENSEARCH"⟩,
        ⟨"db-c", some "postgres"⟩]).lookup "items" = none
    ∧ (list_opensearch_databases [⟨"db-a", some "opensearch"⟩, ⟨"db-b", some "OPENSEARCH"⟩,
        ⟨"db-c", some "postgres"⟩]).map Prod.fst = ["databases", "count"]
    ∧ (list_opensearch_databases [⟨"db-a", some "opensearch"⟩, ⟨"db-b", some "OPENSEARCH"⟩,
        ⟨"db-c", some "postgres"⟩]).lookup "databases" =
        some (DBVal.clusters [⟨"db-a", some "opensearch"⟩, ⟨"db-b", some "OPENSEARCH"⟩])
    ∧ (list_opensearch_databases [⟨"db-a", some "opensearch"⟩, ⟨"db-b", some "OPENSEARCH"⟩,
        ⟨"db-c", some "postgres"⟩]).lookup "count" = some (DBVal.count 2) :=
  ⟨by decide, by decide, by decide, by decide⟩

/-- Claim C6 (amended: the result keys are "databases" and "count", not
"items" and "count"): the managed-database listing keeps exactly the
clusters whose engine field equals "opensearch" case-insensitively, in
their original order, and reports their number under the "count" key. -/
theorem list_opensearch_databases_filter_spec (databases : List Cluster) :
    ∃ kept : List Cluster,
      list_opensearch_databases databases =
        [("databases", DBVal.clusters kept), ("count", DBVal.count kept.length)]
      ∧ kept.Sublist databases
      ∧ ∀ db : Cluster,
          db ∈ kept ↔ db ∈ databases ∧ pyLower (db.engine.getD "") = "opensearch" := by
  refine ⟨databases.filter (fun db => pyLower (db.engine.getD "") == "opensearch"),
    rfl, List.filter_sublist _, ?_⟩
  intro db
  simp [List.mem_filter]

/-- Witness for C6 (amended): the filtering specification applied to the
mixed three-cluster list. -/
theorem list_opensearch_databases_filter_spec_witness :
    ∃ kept : List Cluster,
      list_opensearch_databases [⟨"db-x", some "opensearch"⟩, ⟨"db-y", some "OPENSEARCH"⟩,
          ⟨"db-z", some "postgres"⟩] =
        [("databases", DBVal.clusters kept), ("count", DBVal.count kept.length)]
      ∧ kept.Sublist [⟨"db-x", some "opensearch"⟩, ⟨"db-y", some "OPENSEARCH"⟩,
          ⟨"db-z", some "postgres"⟩]
      ∧ ∀ db : Cluster,
          db ∈ kept ↔ db ∈ [(⟨"db-x", some "opensearch"⟩ : Cluster),
            ⟨"db-y", some "OPENSEARCH"⟩, ⟨"db-z", some "postgres"⟩]
            ∧ pyLower (db.engine.getD "") = "opensearch" :=
  list_opensearch_databases_filter_spec
    [⟨"db-x", some "opensearch"⟩, ⟨"db-y", some "OPENSEARCH"⟩, ⟨"db-z", some "postgres"⟩]

/-- Claim C7: evaluating the agent-deletion handler at the failing input
(a non-blank id whose get_agent lookup is falsy).  The claim and the spec
call for a ValueError carrying the id (HTTP 400), and the handler even
contains that raise; but the guard `not agent and not agent["agent"]`
subscripts the falsy lookup, so a TypeError is raised first and the wrapper
classifies it as an unexpected error with HTTP 500.  The second conjunct
records that the claimed 400-with-id response is not produced. -/
theorem delete_agent_missing_lookup_gives_500 :
    handle_response (delete_agent "agent-123" none []) =
      (Envelope.error "An unexpected error occurred: \x27NoneType\x27 object is not subscriptable",
       500)
    ∧ handle_response (delete_agent "agent-123" none []) ≠
      (Envelope.error "Agent with ID \x27agent-123\x27 not found", 400) :=
  ⟨by decide, by decide⟩

/-- Claim C1: for a batch with at least one valid (non-blank-filename) file,
the handler returns normally with one result per valid file, computed
independently of the other files (so one failure aborts nothing) and listed
in input order; the summary reports successful = the number of files whose
upload succeeded, total = the number of processed files, failed = total -
successful, and in the mixed case the graded {successful} of {total}
message. -/
theorem upload_file_per_file_results (files : List FileCase) (folder : String)
    (fs : List String)
    (hvalid : files.filter (fun f => validFilename f.filename) ≠ []) :
    ∃ resp : UploadResponse,
      (upload_file files folder fs).1 = Except.ok resp
      ∧ resp.results = (files.filter (fun f => validFilename f.filename)).map fileResultOf
      ∧ resp.total = (files.filter (fun f => validFilename f.filename)).length
      ∧ resp.successful =
          ((files.filter (fun f => validFilename f.filename)).filter
            (fun fc => fateSucceeds fc.fate)).length
      ∧ resp.failed = resp.total - resp.successful
      ∧ (0 < resp.successful → resp.successful < resp.total →
          resp.message = toString resp.successful ++ " of " ++ toString resp.total
            ++ " file(s) uploaded successfully") := by
  rw [upload_file_ok files folder fs hvalid]
  refine ⟨_, rfl, uploadSummary_results _ _, ?_, ?_, uploadSummary_failed _ _, ?_⟩
  · rw [uploadSummary_total, List.length_map]
  · rw [uploadSummary_successful, count_success]
  · intro h1 h2
    exact uploadSummary_message_mixed _ _ h1 h2

/-- Witness for C1: a three-file batch (one blank filename excluded, first
valid file failing, two succeeding). -/
theorem upload_file_per_file_results_witness :
    ([⟨some "a.txt", FileFate.uploadFail "/tmp/t0" "boom"⟩, ⟨some " ", FileFate.uploadOk "/tmp/tx" "skipped"⟩,
        ⟨some "b.txt", FileFate.uploadOk "/tmp/t1" "docs/b.txt"⟩,
        (⟨some "c.txt", FileFate.uploadOk "/tmp/t2" "docs/c.txt"⟩ : FileCase)].filter
        (fun f => validFilename f.filename) ≠ [])
    ∧ ∃ resp : UploadResponse,
      (upload_file [⟨some "a.txt", FileFate.uploadFail "/tmp/t0" "boom"⟩,
          ⟨some " ", FileFate.uploadOk "/tmp/tx" "skipped"⟩,
          ⟨some "b.txt", FileFate.uploadOk "/tmp/t1" "docs/b.txt"⟩,
          ⟨some "c.txt", FileFate.uploadOk "/tmp/t2" "docs/c.txt"⟩] "docs" []).1 = Except.ok resp
      ∧ resp.results = ([⟨some "a.txt", FileFate.uploadFail "/tmp/t0" "boom"⟩,
          ⟨some " ", FileFate.uploadOk "/tmp/tx" "skipped"⟩,
          ⟨some "b.txt", FileFate.uploadOk "/tmp/t1" "docs/b.txt"⟩,
          (⟨some "c.txt", FileFate.uploadOk "/tmp/t2" "docs/c.txt"⟩ : FileCase)].filter
          (fun f => validFilename f.filename)).map fileResultOf
      ∧ resp.total = ([⟨some "a.txt", FileFate.uploadFail "/tmp/t0" "boom"⟩,
          ⟨some " ", FileFate.uploadOk "/tmp/tx" "skipped"⟩,
          ⟨some "b.txt", FileFate.uploadOk "/tmp/t1" "docs/b.txt"⟩,
          (⟨some "c.txt", FileFate.uploadOk "/tmp/t2" "docs/c.txt"⟩ : FileCase)].filter
          (fun f => validFilename f.filename)).length
      ∧ resp.successful = (([⟨some "a.txt", FileFate.uploadFail "/tmp/t0" "boom"⟩,
          ⟨some " ", FileFate.uploadOk "/tmp/tx" "skipped"⟩,
          ⟨some "b.txt", FileFate.uploadOk "/tmp/t1" "docs/b.txt"⟩,
          (⟨some "c.txt", FileFate.uploadOk "/tmp/t2" "docs/c.txt"⟩ : FileCase)].filter
          (fun f => validFilename f.filename)).filter (fun fc => fateSucceeds fc.fate)).length
      ∧ resp.failed = resp.total - resp.successful
      ∧ (0 < resp.successful → resp.successful < resp.total →
          resp.message = toString resp.successful ++ " of " ++ toString resp.total
            ++ " file(s) uploaded successfully") :=
  ⟨by decide,
   upload_file_per_file_results
     [⟨some "a.txt", FileFate.uploadFail "/tmp/t0" "boom"⟩,
      ⟨some " ", FileFate.uploadOk "/tmp/tx" "skipped"⟩,
      ⟨some "b.txt", FileFate.uploadOk "/tmp/t1" "docs/b.txt"⟩,
      ⟨some "c.txt", FileFate.uploadOk "/tmp/t2" "docs/c.txt"⟩] "docs" [] (by decide)⟩

/-- Claim C10: for any batch not rejected outright, the summary counts only
the supplied files with a non-blank filename (blank-named entries are
silently excluded), successful + failed = total, and every per-file result
has success exactly when its error field is empty. -/
theorem upload_file_summary_invariants (files : List FileCase) (folder : String)
    (fs : List String)
    (hvalid : files.filter (fun f => validFilename f.filename) ≠ []) :
    ∃ resp : UploadResponse,
      (upload_file files folder fs).1 = Except.ok resp
      ∧ resp.total = (files.filter (fun f => validFilename f.filename)).length
      ∧ resp.successful + resp.failed = resp.total
      ∧ ∀ r ∈ resp.results, (r.success = true ↔ r.error = none) := by
  rw [upload_file_ok files folder fs hvalid]
  refine ⟨_, rfl, ?_, ?_, ?_⟩
  · rw [uploadSummary_total, List.length_map]
  · rw [uploadSummary_failed, uploadSummary_successful, uploadSummary_total]
    have hle := List.length_filter_le (fun r => r.success)
      ((files.filter (fun f => validFilename f.filename)).map fileResultOf)
    omega
  · intro r hr
    rw [uploadSummary_results] at hr
    rcases List.mem_map.mp hr with ⟨fc, _, rfl⟩
    exact fileResultOf_success_iff_error fc

/-- Witness for C10: a two-file batch with one failing upload. -/
theorem upload_file_summary_invariants_witness :
    ([⟨some "a.txt", FileFate.saveFail "/tmp/u0" "disk full"⟩,
        (⟨some "b.txt", FileFate.uploadOk "/tmp/u1" "b.txt"⟩ : FileCase)].filter
        (fun f => validFilename f.filename) ≠ [])
    ∧ ∃ resp : UploadResponse,
      (upload_file [⟨some "a.txt", FileFate.saveFail "/tmp/u0" "disk full"⟩,
          ⟨some "b.txt", FileFate.uploadOk "/tmp/u1" "b.txt"⟩] "" []).1 = Except.ok resp
      ∧ resp.total = ([⟨some "a.txt", FileFate.saveFail "/tmp/u0" "disk full"⟩,
          (⟨some "b.txt", FileFate.uploadOk "/tmp/u1" "b.txt"⟩ : FileCase)].filter
          (fun f => validFilename f.filename)).length
      ∧ resp.successful + resp.failed = resp.total
      ∧ ∀ r ∈ resp.results, (r.success = true ↔ r.error = none) :=
  ⟨by decide,
   upload_file_summary_invariants
     [⟨some "a.txt", FileFate.saveFail "/tmp/u0" "disk full"⟩,
      ⟨some "b.txt", FileFate.uploadOk "/tmp/u1" "b.txt"⟩] "" [] (by decide)⟩

/-- Claim C2: every temporary file created while processing the batch (the
temp paths recorded by the per-file loop) is gone from the filesystem when
the handler returns, whatever the per-file outcomes.  The two validation
raises happen before any temp file exists, and per-file exceptions are
caught inside the loop, so the finally sweep covers every exit of the
handler. -/
theorem upload_file_temp_cleanup (files : List FileCase) (folder : String)
    (fs : List String) :
    ∀ p ∈ (processLoop (files.filter (fun f => validFilename f.filename)) [] [] fs).2.1,
      p ∉ (upload_file files folder fs).2 := by
  intro p hp
  rw [processLoop_spec, List.nil_append] at hp
  by_cases hvalid : files.filter (fun f => validFilename f.filename) = []
  · rw [hvalid] at hp
    simp at hp
  · rw [upload_file_ok files folder fs hvalid]
    exact cleanupTemps_removes _ _ p hp

/-- Witness for C2: the temp path of a failed upload is recorded by the loop
and absent from the final filesystem. -/
theorem upload_file_temp_cleanup_witness :
    ("/tmp/w0" ∈ (processLoop ([⟨some "a.txt", FileFate.uploadFail "/tmp/w0" "boom"⟩,
        (⟨some "b.txt", FileFate.uploadOk "/tmp/w1" "b.txt"⟩ : FileCase)].filter
        (fun f => validFilename f.filename)) [] [] []).2.1)
    ∧ "/tmp/w0" ∉ (upload_file [⟨some "a.txt", FileFate.uploadFail "/tmp/w0" "boom"⟩,
        ⟨some "b.txt", FileFate.uploadOk "/tmp/w1" "b.txt"⟩] "" []).2 :=
  ⟨by decide,
   upload_file_temp_cleanup
     [⟨some "a.txt", FileFate.uploadFail "/tmp/w0" "boom"⟩,
      ⟨some "b.txt", FileFate.uploadOk "/tmp/w1" "b.txt"⟩] "" [] "/tmp/w0" (by decide)⟩

/-- Counterexample for C8: GET / without an Authorization header is rejected
401 by the gate — the before_request hook applies to every route, so the
liveness endpoint is not exempt from authentication and does not succeed
without a credential. -/
theorem liveness_requires_auth_counterexample :
    app_dispatch "secret-token" "GET" "/" none =
      DispatchResult.authReject (errBody "Authorization header is required") 401
    ∧ (app_dispatch "secret-token" "GET" "/" none).isRouted = false :=
  ⟨by decide, by decide⟩

/-- Claim C8 (amended: the liveness endpoint is not exempt — every served
route, liveness included, sits behind the gate): with the token configured,
any non-OPTIONS request with a missing bearer credential is rejected 401
with a status-error body, likewise one with a mismatched token; the liveness
handler (route index 0) is reached only with a valid credential. -/
theorem every_route_guarded :
    (∀ (tok method path : String), tok ≠ "" → method ≠ "OPTIONS" →
        app_dispatch tok method path none =
          DispatchResult.authReject (errBody "Authorization header is required") 401)
    ∧ (∀ (tok method path hdr : String), tok ≠ "" → method ≠ "OPTIONS" →
        pyStartsWith hdr "Bearer " = true → pyDrop hdr 7 ≠ tok →
        app_dispatch tok method path (some hdr) =
          DispatchResult.authReject (errBody "Invalid authentication token") 401)
    ∧ (∀ (tok hdr : String), tok ≠ "" →
        pyStartsWith hdr "Bearer " = true → pyDrop hdr 7 = tok →
        app_dispatch tok "GET" "/" (some hdr) = DispatchResult.routed 0) := by
  refine ⟨?_, ?_, ?_⟩
  · intro tok method path htok hm
    rw [app_dispatch, require_auth_missing_header tok ⟨method, none⟩ htok hm rfl]
  · intro tok method path hdr htok hm hsw hd
    rw [app_dispatch, require_auth_wrong_token tok hdr ⟨method, some hdr⟩ htok hm rfl hsw hd]
  · intro tok hdr htok hsw hd
    rw [app_dispatch,
      require_auth_pass tok hdr ⟨"GET", some hdr⟩ htok
        (show ("GET" : String) ≠ "OPTIONS" by decide) rfl hsw hd]
    have hf : registeredRoutes.findIdx? (fun r => routeMatches r "GET" "/") = some 0 := by
      decide
    rw [hf]

/-- Witness for C8 (amended): concrete unauthenticated requests to the
liveness and files routes are rejected; a valid credential reaches the
liveness handler. -/
theorem every_route_guarded_witness :
    ("tok1" ≠ "" ∧ "POST" ≠ "OPTIONS")
    ∧ app_dispatch "tok1" "POST" "/api/files" none =
        DispatchResult.authReject (errBody "Authorization header is required") 401
    ∧ app_dispatch "tok1" "GET" "/" none =
        DispatchResult.authReject (errBody "Authorization header is required") 401
    ∧ app_dispatch "tok1" "GET" "/" (some "Bearer tok1") = DispatchResult.routed 0 :=
  ⟨⟨by decide, by decide⟩,
   every_route_guarded.1 "tok1" "POST" "/api/files" (by decide) (by decide),
   every_route_guarded.1 "tok1" "GET" "/" (by decide) (by decide),
   every_route_guarded.2.2 "tok1" "Bearer tok1" (by decide) (by decide) (by decide)⟩

/-- Counterexample for C9: an authenticated GET /api/opensearch-databases
gets the unknown-route response from the served app — create_app never
registers the databases blueprint, so no registered route matches the
path. -/
theorem opensearch_route_unknown_counterexample :
    app_dispatch "secret-token" "GET" "/api/opensearch-databases" (some "Bearer secret-token") =
      DispatchResult.notFound
    ∧ registeredRoutes.any (fun r => routeMatches r "GET" "/api/opensearch-databases") = false :=
  ⟨by decide, by decide⟩

/-- Claim C9 (amended: the handler exists only in an unregistered
blueprint): the databases blueprint declares GET /api/opensearch-databases,
but the served app never routes that method and path — dispatch never
reaches a handler for it, under any credential. -/
theorem opensearch_route_defined_but_unregistered :
    databases_bp_routes.any (fun r => routeMatches r "GET" "/api/opensearch-databases") = true
    ∧ registeredRoutes.any (fun r => routeMatches r "GET" "/api/opensearch-databases") = false
    ∧ (∀ (tok : String) (hdr : Option String), tok ≠ "" →
        (app_dispatch tok "GET" "/api/opensearch-databases" hdr).isRouted = false) := by
  refine ⟨by decide, by decide, ?_⟩
  intro tok hdr htok
  rw [app_dispatch]
  cases hra : require_auth (some tok) ⟨"GET", hdr⟩ with
  | some v =>
    cases v with
    | mk body status => rfl
  | none =>
    have hf : registeredRoutes.findIdx?
        (fun r => routeMatches r "GET" "/api/opensearch-databases") = none := by decide
    rw [hf]
    rfl

/-- Witness for C9 (amended): a concrete authenticated request never reaches
a handler for the path. -/
theorem opensearch_route_defined_but_unregistered_witness :
    ("tokX" ≠ "")
    ∧ (app_dispatch "tokX" "GET" "/api/opensearch-databases" (some "Bearer tokX")).isRouted =
        false :=
  ⟨by decide,
   opensearch_route_defined_but_unregistered.2.2 "tokX" (some "Bearer tokX") (by decide)⟩

end DoGenai
